import Mathlib

/-!
A verification development for the vsync/present-mode negotiation logic of
`src/yuzu/configuration/configure_graphics.cpp` (a graphics-settings panel).

The C++ file is embedded shallowly: the settings store, the relevant widget
state and the member fields of `ConfigureGraphics` become one explicit state
record, and each member function that the claims touch becomes a Lean
function on that record.  Machine integers that can carry the Qt sentinel
`-1` (combobox indices) are modelled as `Int`; a raw `std::vector`
subscript is modelled by `listGetI`, which returns `none` exactly when the
C++ access would be out of bounds (i.e. undefined behaviour); consequently
the functions that contain such subscripts return `Option ConfigState`,
with `none` marking an execution that hits an undefined access.
-/

/-- Embeds `Settings::VSyncMode` — the persisted four-value vsync setting. -/
inductive VSyncMode where
  | Immediate
  | Mailbox
  | FIFO
  | FIFORelaxed
  deriving DecidableEq, Repr

/-- Embeds `Settings::RendererBackend` — OpenGL = 0, Vulkan = 1, Null = 2. -/
inductive RendererBackend where
  | OpenGL
  | Vulkan
  | Null
  deriving DecidableEq, Repr

/-- The type `VkPresentModeKHR` is a C enumeration over a 32-bit integer; it is
modelled as `Nat` since only specific enumerator values are inspected. -/
abbrev VkPresentModeKHR := Nat

def VK_PRESENT_MODE_IMMEDIATE_KHR : VkPresentModeKHR := 0
def VK_PRESENT_MODE_MAILBOX_KHR : VkPresentModeKHR := 1
def VK_PRESENT_MODE_FIFO_KHR : VkPresentModeKHR := 2
def VK_PRESENT_MODE_FIFO_RELAXED_KHR : VkPresentModeKHR := 3

/-- Embeds `default_present_modes` (configure_graphics.cpp:39-40):
`{VK_PRESENT_MODE_IMMEDIATE_KHR, VK_PRESENT_MODE_FIFO_KHR}`. -/
def default_present_modes : List VkPresentModeKHR :=
  [VK_PRESENT_MODE_IMMEDIATE_KHR, VK_PRESENT_MODE_FIFO_KHR]

/-- Embeds `VSyncSettingToMode` (configure_graphics.cpp:43-56). -/
def VSyncSettingToMode (mode : VSyncMode) : VkPresentModeKHR :=
  match mode with
  | VSyncMode.Immediate => VK_PRESENT_MODE_IMMEDIATE_KHR
  | VSyncMode.Mailbox => VK_PRESENT_MODE_MAILBOX_KHR
  | VSyncMode.FIFO => VK_PRESENT_MODE_FIFO_KHR
  | VSyncMode.FIFORelaxed => VK_PRESENT_MODE_FIFO_RELAXED_KHR

/-- Embeds `PresentModeToSetting` (configure_graphics.cpp:58-71); the trailing
`else` branch is the C++ `default:` case returning `VSyncMode::FIFO`. -/
def PresentModeToSetting (mode : VkPresentModeKHR) : VSyncMode :=
  if mode = VK_PRESENT_MODE_IMMEDIATE_KHR then VSyncMode.Immediate
  else if mode = VK_PRESENT_MODE_MAILBOX_KHR then VSyncMode.Mailbox
  else if mode = VK_PRESENT_MODE_FIFO_KHR then VSyncMode.FIFO
  else if mode = VK_PRESENT_MODE_FIFO_RELAXED_KHR then VSyncMode.FIFORelaxed
  else VSyncMode.FIFO

/-- Embeds `ConfigureGraphics::TranslateVSyncMode` (configure_graphics.cpp:268-287).
The Qt `tr`/`QStringLiteral` formatting is carried out literally (the `%1`
argument substituted); the `default:` case returns the empty string. -/
def TranslateVSyncMode (mode : VkPresentModeKHR) (backend : RendererBackend) : String :=
  if mode = VK_PRESENT_MODE_IMMEDIATE_KHR then
    if backend = RendererBackend.OpenGL then "Off" else "Immediate (VSync Off)"
  else if mode = VK_PRESENT_MODE_MAILBOX_KHR then "Mailbox (Recommended)"
  else if mode = VK_PRESENT_MODE_FIFO_KHR then
    if backend = RendererBackend.OpenGL then "On" else "FIFO (VSync On)"
  else if mode = VK_PRESENT_MODE_FIFO_RELAXED_KHR then "FIFO Relaxed"
  else ""

/-- Modelled from the spec: the index constants of the external
`ConfigurationShared` framework (declared outside the visible source).  Per
the spec's dual-mode design, the per-profile api combobox puts the
"use global" entry first and offsets the real options after it. -/
def USE_GLOBAL_INDEX : Int := 0

/-- Modelled from the spec: offset of the real options past the
"use global" entry and its separator in per-profile comboboxes (declared
outside the visible source, in `ConfigurationShared`). -/
def USE_GLOBAL_OFFSET : Int := 2

/-- The cast `static_cast<Settings::RendererBackend>` applied to a combobox index.
All executions reaching this cast in the modelled code use an index in
`{0, 1, 2}`; other values are collapsed to `Null` here (the C++ cast is
value-preserving but no enumerator matches, so no claim depends on them). -/
def castBackend (i : Int) : RendererBackend :=
  if i = 0 then RendererBackend.OpenGL
  else if i = 1 then RendererBackend.Vulkan
  else RendererBackend.Null

/-- The state touched by the modelled member functions: the relevant
fields of the `Settings::values` store (with the `use_global` routing flag
of the switchable `renderer_backend` setting made explicit), the widget
state of the comboboxes, and the member fields of `ConfigureGraphics`. -/
structure ConfigState where
  vsync_mode : VSyncMode
  renderer_backend_global : RendererBackend
  renderer_backend_custom : RendererBackend
  renderer_backend_use_global : Bool
  configuring_global : Bool
  api_combobox_index : Int
  vulkan_device_combobox_index : Int
  vsync_mode_combobox_items : List String
  vsync_mode_combobox_current : Int
  vsync_mode_combobox_enabled : Bool
  vsync_mode_combobox_enum_map : List VkPresentModeKHR
  device_present_modes : List (List VkPresentModeKHR)
  vulkan_device : Int
  shader_backend : Int
  deriving DecidableEq, Repr

/-- A raw `std::vector` subscript `v[i]` with an `int` index: `none`
exactly when the access is out of bounds (undefined behaviour in C++). -/
def listGetI {α : Type} (l : List α) (i : Int) : Option α :=
  if i < 0 then none else l.get? i.toNat

/-- Embeds `ConfigureGraphics::GetCurrentGraphicsBackend`
(configure_graphics.cpp:373-385).  Returns the backend together with the
state after the call: in per-profile mode the function calls
`Settings::values.renderer_backend.SetGlobal(...)`, which mutates the
setting's `use_global` flag; `GetValue()` after `SetGlobal(true)` reads the
global value. -/
def GetCurrentGraphicsBackend (s : ConfigState) : RendererBackend × ConfigState :=
  if s.configuring_global then
    (castBackend s.api_combobox_index, s)
  else if s.api_combobox_index = USE_GLOBAL_INDEX then
    (s.renderer_backend_global, { s with renderer_backend_use_global := true })
  else
    (castBackend (s.api_combobox_index - USE_GLOBAL_OFFSET),
      { s with renderer_backend_use_global := false })

/-- The loop of `PopulateVSyncModeSelection` (configure_graphics.cpp:170-182):
walks the source modes in order; a mode whose translated name is empty is
skipped; otherwise the name is appended to the combobox, the mode to the
enum map, and when the mode equals `current_mode` the combobox current
index is set to the entry's position. -/
def rebuildLoop (backend : RendererBackend) (current_mode : VkPresentModeKHR) :
    List VkPresentModeKHR → List String → List VkPresentModeKHR → Int →
    List String × List VkPresentModeKHR × Int
  | [], items, emap, sel => (items, emap, sel)
  | m :: rest, items, emap, sel =>
    let mode_name := TranslateVSyncMode m backend
    if mode_name.isEmpty then
      rebuildLoop backend current_mode rest items emap sel
    else
      rebuildLoop backend current_mode rest (items ++ [mode_name]) (emap ++ [m])
        (if m = current_mode then (emap.length : Int) else sel)

/-- configure_graphics.cpp:156-160: the present mode whose entry should
stay selected — the mode of the current combobox entry, or, when the
combobox has no selection (`currentIndex() == -1`), the mode of the
persisted vsync setting.  `none` marks the undefined out-of-bounds read
`vsync_mode_combobox_enum_map[current_index]` on a stale index. -/
def currentModeOf (s : ConfigState) : Option VkPresentModeKHR :=
  if s.vsync_mode_combobox_current = -1 then
    some (VSyncSettingToMode s.vsync_mode)
  else
    listGetI s.vsync_mode_combobox_enum_map s.vsync_mode_combobox_current

/-- configure_graphics.cpp:162-165: the source list of present modes — the
selected device's list under Vulkan (the raw subscript
`device_present_modes[device]`, `none` when out of bounds), else
`default_present_modes`. -/
def sourceModes (backend : RendererBackend) (s : ConfigState) :
    Option (List VkPresentModeKHR) :=
  if backend = RendererBackend.Vulkan then
    listGetI s.device_present_modes s.vulkan_device_combobox_index
  else
    some default_present_modes

/-- The body of `ConfigureGraphics::PopulateVSyncModeSelection`
(configure_graphics.cpp:148-183) after the backend has been obtained: the
Null backend disables the combobox and returns at once (the previous
items, enum map and current index are left as they are); otherwise the
combobox is enabled, cleared (items emptied, current index `-1`) and
refilled by the loop.  `none` marks an execution hitting an undefined
out-of-bounds vector access. -/
def Rebuild (backend : RendererBackend) (s : ConfigState) : Option ConfigState :=
  if backend = RendererBackend.Null then
    some { s with vsync_mode_combobox_enabled := false }
  else
    match currentModeOf s, sourceModes backend s with
    | some current_mode, some present_modes =>
      let r := rebuildLoop backend current_mode present_modes [] [] (-1)
      some { s with
              vsync_mode_combobox_enabled := true,
              vsync_mode_combobox_items := r.1,
              vsync_mode_combobox_enum_map := r.2.1,
              vsync_mode_combobox_current := r.2.2 }
    | _, _ => none

/-- Embeds `ConfigureGraphics::PopulateVSyncModeSelection` in full: obtain the
backend (with the side effect of `GetCurrentGraphicsBackend` on the
settings store) and rebuild. -/
def PopulateVSyncModeSelection (s : ConfigState) : Option ConfigState :=
  let p := GetCurrentGraphicsBackend s
  Rebuild p.1 p.2

/-- Embeds `ConfigureGraphics::UpdateDeviceSelection` (configure_graphics.cpp:185-192). -/
def UpdateDeviceSelection (device : Int) (s : ConfigState) : ConfigState :=
  if device = -1 then s
  else
    let p := GetCurrentGraphicsBackend s
    if p.1 = RendererBackend.Vulkan then { p.2 with vulkan_device := device }
    else p.2

/-- Embeds `ConfigureGraphics::UpdateShaderBackendSelection`
(configure_graphics.cpp:194-201); the `static_cast<Settings::ShaderBackend>`
is value-preserving, so the member is kept as the raw integer. -/
def UpdateShaderBackendSelection (backend : Int) (s : ConfigState) : ConfigState :=
  if backend = -1 then s
  else
    let p := GetCurrentGraphicsBackend s
    if p.1 = RendererBackend.OpenGL then { p.2 with shader_backend := backend }
    else p.2

/-- The vsync write-back of `ConfigureGraphics::ApplyConfiguration`
(configure_graphics.cpp:289-300).  The `apply_funcs` callbacks belong to
the external settings-linkage framework and are outside the model; the
modelled part is the guarded write
`Settings::values.vsync_mode.SetValue(PresentModeToSetting(enum_map[currentIndex]))`,
performed only under `Settings::IsConfiguringGlobal()`.  `none` marks the
undefined out-of-bounds read on `enum_map[currentIndex]`. -/
def ApplyConfiguration (s : ConfigState) : Option ConfigState :=
  if s.configuring_global then
    match listGetI s.vsync_mode_combobox_enum_map s.vsync_mode_combobox_current with
    | some mode => some { s with vsync_mode := PresentModeToSetting mode }
    | none => none
  else
    some s

/-- The modes of a source list that survive the name filter of the rebuild
loop under a given backend, in source order. -/
def keptModes (backend : RendererBackend) (modes : List VkPresentModeKHR) :
    List VkPresentModeKHR :=
  modes.filter (fun m => !(TranslateVSyncMode m backend).isEmpty)

/-- A neutral, globally-configuring state with a single Vulkan device
supporting `[Immediate, Mailbox, FIFO]` and no combobox contents yet. -/
def baseState : ConfigState :=
  { vsync_mode := VSyncMode.FIFO
    renderer_backend_global := RendererBackend.Vulkan
    renderer_backend_custom := RendererBackend.Vulkan
    renderer_backend_use_global := true
    configuring_global := true
    api_combobox_index := 1
    vulkan_device_combobox_index := 0
    vsync_mode_combobox_items := []
    vsync_mode_combobox_current := -1
    vsync_mode_combobox_enabled := true
    vsync_mode_combobox_enum_map := []
    device_present_modes := [[VK_PRESENT_MODE_IMMEDIATE_KHR,
                              VK_PRESENT_MODE_MAILBOX_KHR,
                              VK_PRESENT_MODE_FIFO_KHR]]
    vulkan_device := 0
    shader_backend := 0 }

/-- A state whose vsync combobox still offers a stale FIFO entry from an
earlier rebuild. -/
def exStaleState : ConfigState :=
  { baseState with
    vsync_mode_combobox_items := ["FIFO (VSync On)"]
    vsync_mode_combobox_enum_map := [VK_PRESENT_MODE_FIFO_KHR]
    vsync_mode_combobox_current := 0 }

/-- A state with no enumerated Vulkan devices: the device list is empty
and the device combobox reports `currentIndex() == -1`. -/
def exNoDeviceState : ConfigState :=
  { baseState with
    device_present_modes := []
    vulkan_device_combobox_index := -1 }

/-- A globally-configuring state whose vsync combobox offers exactly
Mailbox, currently selected. -/
def exGlobalCommitState : ConfigState :=
  { baseState with
    vsync_mode_combobox_items := ["Mailbox (Recommended)"]
    vsync_mode_combobox_enum_map := [VK_PRESENT_MODE_MAILBOX_KHR]
    vsync_mode_combobox_current := 0 }

/-- A per-profile (non-global) state: the api combobox sits past the
"use global" entry (index 3, i.e. the Vulkan option) and the
`renderer_backend` setting currently routes to its global value. -/
def exOverrideState : ConfigState :=
  { baseState with
    configuring_global := false
    api_combobox_index := 3
    device_present_modes := [[VK_PRESENT_MODE_FIFO_KHR]] }

/-- A per-profile (non-global) state whose api combobox sits on the
OpenGL option (index 2 after the use-global offset). -/
def exOverrideGLState : ConfigState :=
  { baseState with
    configuring_global := false
    api_combobox_index := 2 }

/-- A fixed point of the Vulkan rebuild: the combobox already offers the
device's three modes with Mailbox (position 1) selected, while the
persisted setting is FIFO. -/
def exRoundTripState : ConfigState :=
  { baseState with
    vsync_mode_combobox_items :=
      ["Immediate (VSync Off)", "Mailbox (Recommended)", "FIFO (VSync On)"]
    vsync_mode_combobox_enum_map := [VK_PRESENT_MODE_IMMEDIATE_KHR,
                                     VK_PRESENT_MODE_MAILBOX_KHR,
                                     VK_PRESENT_MODE_FIFO_KHR]
    vsync_mode_combobox_current := 1 }

/-- Like `exRoundTripState` but with FIFO (position 2) selected, matching
the persisted setting. -/
def exRoundTripFIFOState : ConfigState :=
  { exRoundTripState with vsync_mode_combobox_current := 2 }

/-- The state produced by rebuilding `exOverrideState`: the use-global
flag is cleared by the backend lookup and the combobox offers the single
FIFO mode of the device. -/
def exOverrideRebuilt : ConfigState :=
  { exOverrideState with
      renderer_backend_use_global := false
      vsync_mode_combobox_items := ["FIFO (VSync On)"]
      vsync_mode_combobox_enum_map := [VK_PRESENT_MODE_FIFO_KHR]
      vsync_mode_combobox_current := 0 }

/-- The rebuild loop appends exactly the source modes whose translated
names are non-empty, in source order, and the parallel item list holds
their names. -/
theorem rebuildLoop_spec_lists (b : RendererBackend) (c : VkPresentModeKHR) :
    ∀ (modes : List VkPresentModeKHR) (items : List String)
      (emap : List VkPresentModeKHR) (sel : Int),
    (rebuildLoop b c modes items emap sel).1 =
      items ++ (keptModes b modes).map (fun m => TranslateVSyncMode m b) ∧
    (rebuildLoop b c modes items emap sel).2.1 = emap ++ keptModes b modes := by
  intro modes
  induction modes with
  | nil =>
    intro items emap sel
    simp [rebuildLoop, keptModes]
  | cons m rest ih =>
    intro items emap sel
    by_cases h : (TranslateVSyncMode m b).isEmpty
    · have hk : keptModes b (m :: rest) = keptModes b rest := by
        simp [keptModes, List.filter_cons, h]
      simp only [rebuildLoop, h, if_true, hk]
      exact ih items emap sel
    · have hb : (TranslateVSyncMode m b).isEmpty = false := by
        simp [h]
      have hk : keptModes b (m :: rest) = m :: keptModes b rest := by
        simp [keptModes, List.filter_cons, hb]
      simp only [rebuildLoop, hb, Bool.false_eq_true, if_false, hk]
      rcases ih (items ++ [TranslateVSyncMode m b]) (emap ++ [m])
        (if m = c then (emap.length : Int) else sel) with ⟨h1, h2⟩
      constructor
      · rw [h1]; simp
      · rw [h2]; simp

/-- The rebuild loop's final current index: when the offered sublist is
duplicate-free, it is the position (offset by the entries already
present) of `c` among the kept modes if `c` is kept, else the incoming
selection value (`-1` at the top-level call). -/
theorem rebuildLoop_spec_sel (b : RendererBackend) (c : VkPresentModeKHR) :
    ∀ (modes : List VkPresentModeKHR) (items : List String)
      (emap : List VkPresentModeKHR) (sel : Int),
    (keptModes b modes).Nodup →
    (rebuildLoop b c modes items emap sel).2.2 =
      if c ∈ keptModes b modes
      then ((emap.length + (keptModes b modes).indexOf c : Nat) : Int)
      else sel := by
  intro modes
  induction modes with
  | nil =>
    intro items emap sel _
    simp [rebuildLoop, keptModes]
  | cons m rest ih =>
    intro items emap sel hnd
    by_cases h : (TranslateVSyncMode m b).isEmpty
    · have hk : keptModes b (m :: rest) = keptModes b rest := by
        simp [keptModes, List.filter_cons, h]
      rw [hk] at hnd ⊢
      simp only [rebuildLoop, h, if_true]
      exact ih items emap sel hnd
    · have hbf : (TranslateVSyncMode m b).isEmpty = false := by
        simp [h]
      have hk : keptModes b (m :: rest) = m :: keptModes b rest := by
        simp [keptModes, List.filter_cons, hbf]
      rw [hk] at hnd ⊢
      have hnotmem : m ∉ keptModes b rest := (List.nodup_cons.mp hnd).1
      have hnd' : (keptModes b rest).Nodup := (List.nodup_cons.mp hnd).2
      simp only [rebuildLoop, hbf, Bool.false_eq_true, if_false]
      rw [ih (items ++ [TranslateVSyncMode m b]) (emap ++ [m])
        (if m = c then (emap.length : Int) else sel) hnd']
      by_cases hc : m = c
      · subst hc
        rw [if_neg hnotmem, if_pos rfl, if_pos (List.mem_cons_self m _),
          List.indexOf_cons_self]
        simp
      · have hc' : ¬ c = m := fun h => hc h.symm
        have hidx : (m :: keptModes b rest).indexOf c =
            ((keptModes b rest).indexOf c) + 1 := by
          simpa using List.indexOf_cons_ne (keptModes b rest) hc
        by_cases hmem : c ∈ keptModes b rest
        · have hmm : c ∈ m :: keptModes b rest := List.mem_cons_of_mem m hmem
          rw [if_pos hmem, if_pos hmm, hidx]
          simp only [List.length_append, List.length_cons, List.length_nil]
          push_cast
          ring
        · have hnm : c ∉ m :: keptModes b rest := by
            intro hx
            rcases List.mem_cons.mp hx with h1 | h2
            · exact hc' h1
            · exact hmem h2
          rw [if_neg hmem, if_neg hc, if_neg hnm]

/-- Inversion of a successful non-Null rebuild: the resulting state is the
input with the combobox enabled and its items, enum map and current index
replaced by the filtered source list, its names and the loop's selection. -/
theorem Rebuild_inv (backend : RendererBackend) (s s' : ConfigState)
    (hb : ¬ backend = RendererBackend.Null)
    (h : Rebuild backend s = some s') :
    ∃ c src, currentModeOf s = some c ∧ sourceModes backend s = some src ∧
      s' = { s with
        vsync_mode_combobox_enabled := true,
        vsync_mode_combobox_items :=
          (keptModes backend src).map (fun m => TranslateVSyncMode m backend),
        vsync_mode_combobox_enum_map := keptModes backend src,
        vsync_mode_combobox_current :=
          (rebuildLoop backend c src [] [] (-1)).2.2 } := by
  unfold Rebuild at h
  rw [if_neg hb] at h
  rcases hcm : currentModeOf s with _ | c
  · rw [hcm] at h
    simp at h
  · rcases hsm : sourceModes backend s with _ | src
    · rw [hcm, hsm] at h
      simp at h
    · rw [hcm, hsm] at h
      simp only [Option.some.injEq] at h
      rcases rebuildLoop_spec_lists backend c src [] [] (-1) with ⟨h1, h2⟩
      refine ⟨c, src, rfl, rfl, ?_⟩
      rw [← h]
      simp only [h1, h2, List.nil_append]

/-- C4: for each of the four defined VSyncSetting values, converting the
setting to a present mode and back yields the same setting. -/
theorem vsync_setting_mode_roundtrip (s : VSyncMode) :
    PresentModeToSetting (VSyncSettingToMode s) = s := by
  cases s <;> rfl

/-- C5: the conversions are total functions of the embedding, and every
present-mode value outside the four mapped identifiers falls into the
default branch, yielding the FIFO setting. -/
theorem present_mode_to_setting_default (m : VkPresentModeKHR)
    (h0 : m ≠ VK_PRESENT_MODE_IMMEDIATE_KHR)
    (h1 : m ≠ VK_PRESENT_MODE_MAILBOX_KHR)
    (h2 : m ≠ VK_PRESENT_MODE_FIFO_KHR)
    (h3 : m ≠ VK_PRESENT_MODE_FIFO_RELAXED_KHR) :
    PresentModeToSetting m = VSyncMode.FIFO := by
  simp [PresentModeToSetting, h0, h1, h2, h3]

/-- C5 witness: the foreign enumerator value 1000111000
(`VK_PRESENT_MODE_SHARED_DEMAND_REFRESH_KHR`) folds to FIFO. -/
theorem present_mode_to_setting_default_witness :
    (1000111000 : VkPresentModeKHR) ≠ VK_PRESENT_MODE_IMMEDIATE_KHR ∧
    PresentModeToSetting 1000111000 = VSyncMode.FIFO :=
  ⟨by decide,
   present_mode_to_setting_default 1000111000 (by decide) (by decide)
     (by decide) (by decide)⟩

/-- C3 counterexample: rebuilding under the Null backend on a state whose
combobox still offers a stale FIFO entry leaves that offered list in place
([FIFO], not []), refuting "always yields an empty offered list regardless
of any previously offered modes". -/
theorem null_rebuild_counterexample :
    (Rebuild RendererBackend.Null exStaleState).map
      (fun s => s.vsync_mode_combobox_enum_map) =
      some [VK_PRESENT_MODE_FIFO_KHR] := by
  rfl

/-- C3 (amended): for the Null backend the rebuild indicates that
selection is disabled and performs no further computation; everything
else — in particular the previously offered list — is left unchanged, so
the offered list is empty only when it was already empty. -/
theorem null_rebuild_disables_only (s : ConfigState) :
    Rebuild RendererBackend.Null s =
      some { s with vsync_mode_combobox_enabled := false } := by
  rfl

/-- C6: under the Vulkan backend with no enumerated devices the device
combobox reports index -1 and the code evaluates
`device_present_modes[device]` with an unchecked, negative index — an
out-of-bounds `std::vector` access (modelled as `none`); the code has no
deterministic in-bounds response for an out-of-range device index. -/
theorem vulkan_rebuild_oob_device_index :
    Rebuild RendererBackend.Vulkan exNoDeviceState = none ∧
    sourceModes RendererBackend.Vulkan exNoDeviceState = none := by
  constructor <;> rfl

/-- C1: for every non-Null backend, a successful rebuild offers exactly
the source list (the selected device's present modes under Vulkan, else
the fixed default list) traversed in source order, keeping each mode whose
translated name is non-empty and skipping each mode whose name is empty;
the parallel item list carries those names. -/
theorem rebuild_offered_list_spec (backend : RendererBackend)
    (s s' : ConfigState) (src : List VkPresentModeKHR)
    (hb : ¬ backend = RendererBackend.Null)
    (hsrc : sourceModes backend s = some src)
    (h : Rebuild backend s = some s') :
    s'.vsync_mode_combobox_enum_map =
      src.filter (fun m => !(TranslateVSyncMode m backend).isEmpty) ∧
    s'.vsync_mode_combobox_items =
      (src.filter (fun m => !(TranslateVSyncMode m backend).isEmpty)).map
        (fun m => TranslateVSyncMode m backend) := by
  rcases Rebuild_inv backend s s' hb h with ⟨c, src', hc, hsrc', hs⟩
  rw [hsrc] at hsrc'
  injection hsrc' with es
  subst es
  subst hs
  exact ⟨rfl, rfl⟩

/-- C1 witness: a Vulkan device offering [Immediate, Mailbox, FIFO], all
three named, is offered exactly as those three in that order. -/
theorem rebuild_offered_list_spec_witness :
    exRoundTripState.vsync_mode_combobox_enum_map =
      [VK_PRESENT_MODE_IMMEDIATE_KHR, VK_PRESENT_MODE_MAILBOX_KHR,
        VK_PRESENT_MODE_FIFO_KHR].filter
        (fun m => !(TranslateVSyncMode m RendererBackend.Vulkan).isEmpty) ∧
    exRoundTripState.vsync_mode_combobox_items =
      ([VK_PRESENT_MODE_IMMEDIATE_KHR, VK_PRESENT_MODE_MAILBOX_KHR,
        VK_PRESENT_MODE_FIFO_KHR].filter
        (fun m => !(TranslateVSyncMode m RendererBackend.Vulkan).isEmpty)).map
        (fun m => TranslateVSyncMode m RendererBackend.Vulkan) :=
  rebuild_offered_list_spec RendererBackend.Vulkan exRoundTripState
    exRoundTripState
    [VK_PRESENT_MODE_IMMEDIATE_KHR, VK_PRESENT_MODE_MAILBOX_KHR,
      VK_PRESENT_MODE_FIFO_KHR]
    (by decide) (by rfl) (by rfl)

/-- C2: after a successful rebuild with a non-Null backend and a
duplicate-free filtered source, if the mode to keep selected (the
previously selected mode, or the persisted setting's mode when nothing was
selected) occurs in the offered list then the combobox current index is
that entry's position; if it does not occur, the current index stays at
the cleared value -1 (unset) — in particular it is not coerced to 0. -/
theorem rebuild_selection_continuity (backend : RendererBackend)
    (s s' : ConfigState) (src : List VkPresentModeKHR) (c : VkPresentModeKHR)
    (hb : ¬ backend = RendererBackend.Null)
    (hc : currentModeOf s = some c)
    (hsrc : sourceModes backend s = some src)
    (hnd : (keptModes backend src).Nodup)
    (h : Rebuild backend s = some s') :
    (c ∈ s'.vsync_mode_combobox_enum_map →
      s'.vsync_mode_combobox_current =
        ((s'.vsync_mode_combobox_enum_map.indexOf c : Nat) : Int)) ∧
    (c ∉ s'.vsync_mode_combobox_enum_map →
      s'.vsync_mode_combobox_current = -1) := by
  rcases Rebuild_inv backend s s' hb h with ⟨c', src', hc', hsrc', hs⟩
  rw [hc] at hc'
  injection hc' with ec
  rw [hsrc] at hsrc'
  injection hsrc' with es
  subst ec
  subst es
  subst hs
  dsimp only
  rw [rebuildLoop_spec_sel backend c src [] [] (-1) hnd]
  constructor
  · intro hmem
    rw [if_pos hmem]
    simp
  · intro hmem
    rw [if_neg hmem]

/-- C2 witness: with Mailbox previously selected and the offered list
[Immediate, Mailbox, FIFO], the selected index is Mailbox's position. -/
theorem rebuild_selection_continuity_witness :
    ((VK_PRESENT_MODE_MAILBOX_KHR : VkPresentModeKHR) ∈
        exRoundTripState.vsync_mode_combobox_enum_map →
      exRoundTripState.vsync_mode_combobox_current =
        ((exRoundTripState.vsync_mode_combobox_enum_map.indexOf
            VK_PRESENT_MODE_MAILBOX_KHR : Nat) : Int)) ∧
    ((VK_PRESENT_MODE_MAILBOX_KHR : VkPresentModeKHR) ∉
        exRoundTripState.vsync_mode_combobox_enum_map →
      exRoundTripState.vsync_mode_combobox_current = -1) :=
  rebuild_selection_continuity RendererBackend.Vulkan exRoundTripState
    exRoundTripState
    [VK_PRESENT_MODE_IMMEDIATE_KHR, VK_PRESENT_MODE_MAILBOX_KHR,
      VK_PRESENT_MODE_FIFO_KHR]
    VK_PRESENT_MODE_MAILBOX_KHR
    (by decide) (by rfl) (by rfl) (by decide) (by rfl)

/-- A successful rebuild only writes the vsync combobox fields: every
settings-store field, member field and the other widget fields carry over
from the state the backend lookup produced. -/
theorem Rebuild_preserves (backend : RendererBackend) (t s' : ConfigState)
    (h : Rebuild backend t = some s') :
    s'.vsync_mode = t.vsync_mode ∧
    s'.renderer_backend_global = t.renderer_backend_global ∧
    s'.renderer_backend_custom = t.renderer_backend_custom ∧
    s'.renderer_backend_use_global = t.renderer_backend_use_global ∧
    s'.configuring_global = t.configuring_global ∧
    s'.api_combobox_index = t.api_combobox_index ∧
    s'.vulkan_device_combobox_index = t.vulkan_device_combobox_index ∧
    s'.device_present_modes = t.device_present_modes ∧
    s'.vulkan_device = t.vulkan_device ∧
    s'.shader_backend = t.shader_backend := by
  by_cases hb : backend = RendererBackend.Null
  · subst hb
    unfold Rebuild at h
    simp at h
    subst h
    simp
  · rcases Rebuild_inv backend t s' hb h with ⟨c, src, _, _, hs⟩
    subst hs
    simp

/-- The function `GetCurrentGraphicsBackend` touches at most the use-global routing
flag of the renderer_backend setting. -/
theorem GetCurrentGraphicsBackend_snd (s : ConfigState) :
    (GetCurrentGraphicsBackend s).2 =
      { s with renderer_backend_use_global :=
          (GetCurrentGraphicsBackend s).2.renderer_backend_use_global } := by
  unfold GetCurrentGraphicsBackend
  split
  · rfl
  · split
    · rfl
    · rfl

/-- The use-global flag after `GetCurrentGraphicsBackend`: unchanged when
configuring globally, else set to whether the api combobox sits on the
use-global entry. -/
theorem GetCurrentGraphicsBackend_flag (s : ConfigState) :
    (GetCurrentGraphicsBackend s).2.renderer_backend_use_global =
      (if s.configuring_global = true then s.renderer_backend_use_global
       else if s.api_combobox_index = USE_GLOBAL_INDEX then true
       else false) := by
  unfold GetCurrentGraphicsBackend
  by_cases hg : s.configuring_global = true
  · rw [if_pos hg, if_pos hg]
  · rw [if_neg hg, if_neg hg]
    by_cases ha : s.api_combobox_index = USE_GLOBAL_INDEX
    · rw [if_pos ha, if_pos ha]
    · rw [if_neg ha, if_neg ha]

/-- C7: a successful commit writes the ModeToSetting conversion of the
currently selected present mode into the persisted vsync setting exactly
when configuring globally; in per-profile mode the vsync commit is skipped
and the state is unchanged. -/
theorem apply_configuration_vsync_commit (s s' : ConfigState)
    (h : ApplyConfiguration s = some s') :
    (s.configuring_global = false → s' = s) ∧
    (s.configuring_global = true →
      ∃ m, listGetI s.vsync_mode_combobox_enum_map
          s.vsync_mode_combobox_current = some m ∧
        s' = { s with vsync_mode := PresentModeToSetting m }) := by
  unfold ApplyConfiguration at h
  cases hgl : s.configuring_global with
  | false =>
    rw [hgl] at h
    simp at h
    refine ⟨fun _ => h.symm, fun ht => ?_⟩
    simp at ht
  | true =>
    rw [hgl] at h
    simp only [if_true] at h
    rcases hget : listGetI s.vsync_mode_combobox_enum_map
        s.vsync_mode_combobox_current with _ | m
    · rw [hget] at h
      simp at h
    · rw [hget] at h
      simp only [Option.some.injEq] at h
      refine ⟨fun hf => ?_, fun _ => ⟨m, rfl, h.symm⟩⟩
      simp at hf

/-- C7 witness: in global mode with Mailbox selected, the commit persists
the Mailbox setting. -/
theorem apply_configuration_vsync_commit_witness :
    (exGlobalCommitState.configuring_global = false →
      { exGlobalCommitState with vsync_mode := VSyncMode.Mailbox } =
        exGlobalCommitState) ∧
    (exGlobalCommitState.configuring_global = true →
      ∃ m, listGetI exGlobalCommitState.vsync_mode_combobox_enum_map
          exGlobalCommitState.vsync_mode_combobox_current = some m ∧
        { exGlobalCommitState with vsync_mode := VSyncMode.Mailbox } =
          { exGlobalCommitState with vsync_mode := PresentModeToSetting m }) :=
  apply_configuration_vsync_commit exGlobalCommitState
    { exGlobalCommitState with vsync_mode := VSyncMode.Mailbox } (by rfl)

/-- C8 counterexample: rebuilding in per-profile mode (api combobox past
the use-global entry) flips the renderer_backend setting's use-global
routing flag in the settings store from true to false — the rebuild is not
free of settings-store mutation. -/
theorem rebuild_mutates_use_global_flag :
    (PopulateVSyncModeSelection exOverrideState).map
      (fun s => s.renderer_backend_use_global) = some false ∧
    exOverrideState.renderer_backend_use_global = true := by
  constructor <;> rfl

/-- C8 (amended): a successful rebuild never changes any persisted setting
value (the vsync setting and the renderer backend's global and custom
values are untouched) and, when configuring globally, leaves the settings
store entirely unchanged; but in per-profile mode its embedded
`GetCurrentGraphicsBackend` call sets the renderer_backend setting's
use-global flag to whether the api combobox sits on the use-global
entry. -/
theorem rebuild_settings_store_effects (s s' : ConfigState)
    (h : PopulateVSyncModeSelection s = some s') :
    s'.vsync_mode = s.vsync_mode ∧
    s'.renderer_backend_global = s.renderer_backend_global ∧
    s'.renderer_backend_custom = s.renderer_backend_custom ∧
    (s.configuring_global = true →
      s'.renderer_backend_use_global = s.renderer_backend_use_global) ∧
    (s.configuring_global = false →
      s'.renderer_backend_use_global =
        (if s.api_combobox_index = USE_GLOBAL_INDEX then true else false)) := by
  unfold PopulateVSyncModeSelection at h
  have hp := Rebuild_preserves _ _ _ h
  have hsnd := GetCurrentGraphicsBackend_snd s
  have hflag := GetCurrentGraphicsBackend_flag s
  rw [hsnd] at hp
  refine ⟨?_, ?_, ?_, ?_, ?_⟩
  · exact hp.1
  · exact hp.2.1
  · exact hp.2.2.1
  · intro hg
    rw [hp.2.2.2.1, hflag, if_pos hg]
  · intro hg
    rw [hp.2.2.2.1, hflag, if_neg (by rw [hg]; simp)]

/-- C8 amended witness: the per-profile example rebuild changes no
setting value and sets the use-global flag per the api combobox entry. -/
theorem rebuild_settings_store_effects_witness :
    exOverrideRebuilt.vsync_mode = exOverrideState.vsync_mode ∧
    exOverrideRebuilt.renderer_backend_global =
      exOverrideState.renderer_backend_global ∧
    exOverrideRebuilt.renderer_backend_custom =
      exOverrideState.renderer_backend_custom ∧
    (exOverrideState.configuring_global = true →
      exOverrideRebuilt.renderer_backend_use_global =
        exOverrideState.renderer_backend_use_global) ∧
    (exOverrideState.configuring_global = false →
      exOverrideRebuilt.renderer_backend_use_global =
        (if exOverrideState.api_combobox_index = USE_GLOBAL_INDEX
         then true else false)) :=
  rebuild_settings_store_effects exOverrideState exOverrideRebuilt (by rfl)

/-- C10 counterexample: in per-profile mode with the api combobox on the
OpenGL entry, `UpdateDeviceSelection 5` leaves the stored device selection
unchanged (backend mismatch) yet still modifies other state: the
renderer_backend use-global flag flips from true to false. -/
theorem update_device_selection_counterexample :
    (UpdateDeviceSelection 5 exOverrideGLState).vulkan_device =
      exOverrideGLState.vulkan_device ∧
    exOverrideGLState.renderer_backend_use_global = true ∧
    (UpdateDeviceSelection 5 exOverrideGLState).renderer_backend_use_global =
      false := by
  refine ⟨rfl, rfl, rfl⟩

/-- C10 (amended): with index -1 both update operations leave the whole
state unchanged; with a real index the stored device selection changes
only under the Vulkan backend and the stored shader-backend selection only
under the OpenGL backend; beyond the respective stored selection the only
other state either operation can modify is the renderer_backend
use-global flag, mutated by the embedded backend lookup in per-profile
mode. -/
theorem update_selection_frame (d : Int) (s : ConfigState) :
    UpdateDeviceSelection (-1) s = s ∧
    UpdateShaderBackendSelection (-1) s = s ∧
    ((GetCurrentGraphicsBackend s).1 ≠ RendererBackend.Vulkan →
      (UpdateDeviceSelection d s).vulkan_device = s.vulkan_device) ∧
    ((GetCurrentGraphicsBackend s).1 ≠ RendererBackend.OpenGL →
      (UpdateShaderBackendSelection d s).shader_backend = s.shader_backend) ∧
    (UpdateDeviceSelection d s).shader_backend = s.shader_backend ∧
    (UpdateShaderBackendSelection d s).vulkan_device = s.vulkan_device ∧
    UpdateDeviceSelection d s =
      { s with
          vulkan_device := (UpdateDeviceSelection d s).vulkan_device,
          renderer_backend_use_global :=
            (UpdateDeviceSelection d s).renderer_backend_use_global } ∧
    UpdateShaderBackendSelection d s =
      { s with
          shader_backend := (UpdateShaderBackendSelection d s).shader_backend,
          renderer_backend_use_global :=
            (UpdateShaderBackendSelection d s).renderer_backend_use_global } := by
  have hsnd := GetCurrentGraphicsBackend_snd s
  refine ⟨?_, ?_, ?_, ?_, ?_, ?_, ?_, ?_⟩
  · simp [UpdateDeviceSelection]
  · simp [UpdateShaderBackendSelection]
  · intro hv
    unfold UpdateDeviceSelection
    by_cases hd : d = -1
    · rw [if_pos hd]
    · rw [if_neg hd, if_neg hv, hsnd]
  · intro ho
    unfold UpdateShaderBackendSelection
    by_cases hd : d = -1
    · rw [if_pos hd]
    · rw [if_neg hd, if_neg ho, hsnd]
  · unfold UpdateDeviceSelection
    by_cases hd : d = -1
    · rw [if_pos hd]
    · rw [if_neg hd]
      by_cases hv : (GetCurrentGraphicsBackend s).1 = RendererBackend.Vulkan
      · rw [if_pos hv, hsnd]
      · rw [if_neg hv, hsnd]
  · unfold UpdateShaderBackendSelection
    by_cases hd : d = -1
    · rw [if_pos hd]
    · rw [if_neg hd]
      by_cases ho : (GetCurrentGraphicsBackend s).1 = RendererBackend.OpenGL
      · rw [if_pos ho, hsnd]
      · rw [if_neg ho, hsnd]
  · unfold UpdateDeviceSelection
    by_cases hd : d = -1
    · rw [if_pos hd]
    · rw [if_neg hd]
      by_cases hv : (GetCurrentGraphicsBackend s).1 = RendererBackend.Vulkan
      · rw [if_pos hv, hsnd]
      · rw [if_neg hv, hsnd]
  · unfold UpdateShaderBackendSelection
    by_cases hd : d = -1
    · rw [if_pos hd]
    · rw [if_neg hd]
      by_cases ho : (GetCurrentGraphicsBackend s).1 = RendererBackend.OpenGL
      · rw [if_pos ho, hsnd]
      · rw [if_neg ho, hsnd]

/-- C10 amended witness: the backend mismatch leaves the device selection
alone, and index -1 is the identity, at a concrete per-profile state. -/
theorem update_selection_frame_witness :
    (UpdateDeviceSelection 5 exOverrideGLState).vulkan_device =
      exOverrideGLState.vulkan_device ∧
    UpdateShaderBackendSelection (-1) exOverrideGLState = exOverrideGLState :=
  ⟨(update_selection_frame 5 exOverrideGLState).2.2.1 (by decide),
   (update_selection_frame 5 exOverrideGLState).2.1⟩

/-- The raw subscript at the position `indexOf` returns the element
looked up, for a member. -/
theorem listGetI_indexOf {α : Type} [DecidableEq α] (l : List α) (c : α)
    (h : c ∈ l) :
    listGetI l ((l.indexOf c : Nat) : Int) = some c := by
  unfold listGetI
  rw [if_neg (by omega)]
  have ht : (((l.indexOf c : Nat) : Int)).toNat = l.indexOf c := by omega
  rw [ht]
  exact List.indexOf_get? h

/-- The function `sourceModes` depends only on the device fields of the state. -/
theorem sourceModes_congr (b : RendererBackend) (t t' : ConfigState)
    (h1 : t'.device_present_modes = t.device_present_modes)
    (h2 : t'.vulkan_device_combobox_index = t.vulkan_device_combobox_index) :
    sourceModes b t' = sourceModes b t := by
  unfold sourceModes
  rw [h1, h2]

/-- Closed form of a successful non-Null rebuild under a duplicate-free
filtered source: the combobox ends up holding the kept modes and their
names, with the current index at the kept position of the mode to keep
selected, or -1 when that mode was filtered away or absent. -/
theorem Rebuild_result (b : RendererBackend) (t : ConfigState)
    (c : VkPresentModeKHR) (src : List VkPresentModeKHR)
    (hb : ¬ b = RendererBackend.Null)
    (hc : currentModeOf t = some c)
    (hsrc : sourceModes b t = some src)
    (hnd : (keptModes b src).Nodup) :
    Rebuild b t = some { t with
      vsync_mode_combobox_enabled := true,
      vsync_mode_combobox_items :=
        (keptModes b src).map (fun m => TranslateVSyncMode m b),
      vsync_mode_combobox_enum_map := keptModes b src,
      vsync_mode_combobox_current :=
        (if c ∈ keptModes b src
         then (((keptModes b src).indexOf c : Nat) : Int)
         else -1) } := by
  unfold Rebuild
  rw [if_neg hb, hc, hsrc]
  rcases rebuildLoop_spec_lists b c src [] [] (-1) with ⟨h1, h2⟩
  have h3 := rebuildLoop_spec_sel b c src [] [] (-1) hnd
  dsimp only
  rw [h1, h2, h3]
  simp

/-- The mode `currentModeOf` finds on a state shaped like a rebuild
result: the kept selected mode when it survived, else the persisted
setting's mode. -/
theorem currentModeOf_of_fields (u : ConfigState) (c : VkPresentModeKHR)
    (kept : List VkPresentModeKHR)
    (hcur : u.vsync_mode_combobox_current =
      (if c ∈ kept then ((kept.indexOf c : Nat) : Int) else -1))
    (henum : u.vsync_mode_combobox_enum_map = kept) :
    currentModeOf u =
      some (if c ∈ kept then c else VSyncSettingToMode u.vsync_mode) := by
  unfold currentModeOf
  by_cases hm : c ∈ kept
  · rw [hcur, if_pos hm, if_pos hm, if_neg (by omega), henum]
    exact listGetI_indexOf kept c hm
  · rw [hcur, if_neg hm, if_neg hm]
    simp

/-- Restates `Rebuild_result` with the resulting state abstracted and its fields
read off, for chaining several rebuilds. -/
theorem Rebuild_result_fields (b : RendererBackend) (t : ConfigState)
    (c : VkPresentModeKHR) (src : List VkPresentModeKHR)
    (hb : ¬ b = RendererBackend.Null)
    (hc : currentModeOf t = some c)
    (hsrc : sourceModes b t = some src)
    (hnd : (keptModes b src).Nodup) :
    ∃ u, Rebuild b t = some u ∧
      u.vsync_mode_combobox_enum_map = keptModes b src ∧
      u.vsync_mode_combobox_items =
        (keptModes b src).map (fun m => TranslateVSyncMode m b) ∧
      u.vsync_mode_combobox_current =
        (if c ∈ keptModes b src
         then (((keptModes b src).indexOf c : Nat) : Int)
         else -1) ∧
      u.vsync_mode = t.vsync_mode ∧
      (∀ b', sourceModes b' u = sourceModes b' t) :=
  ⟨_, Rebuild_result b t c src hb hc hsrc hnd, rfl, rfl, rfl, rfl,
    fun _ => rfl⟩

/-- C9 counterexample: a reachable Vulkan state (a fixed point of the
Vulkan rebuild) with Mailbox selected (index 1) while the persisted
setting is FIFO: after switching to OpenGL and back to Vulkan, rebuilding
each time with unchanged device list and persisted settings, the offered
list is reproduced but the selection ends on FIFO (index 2), not on the
previous index 1. -/
theorem roundtrip_counterexample :
    Rebuild RendererBackend.Vulkan exRoundTripState = some exRoundTripState ∧
    (((Rebuild RendererBackend.Vulkan exRoundTripState).bind
        (Rebuild RendererBackend.OpenGL)).bind
        (Rebuild RendererBackend.Vulkan)).map
      (fun s => s.vsync_mode_combobox_current) = some 2 ∧
    exRoundTripState.vsync_mode_combobox_current = 1 := by
  refine ⟨rfl, rfl, rfl⟩

/-- C9 (amended): starting from the outcome of a Vulkan rebuild with a
duplicate-free filtered source, switching to OpenGL and back to Vulkan
and rebuilding each time always reproduces the offered list (modes and
names); the selection index is reproduced provided the selected entry's
mode also survives the intermediate OpenGL offering (otherwise the
selection is re-derived from the persisted setting and may differ, as the
counterexample shows). -/
theorem roundtrip_offered_and_selection (s0 s1 : ConfigState)
    (src : List VkPresentModeKHR) (c : VkPresentModeKHR)
    (h0 : Rebuild RendererBackend.Vulkan s0 = some s1)
    (hsrc : sourceModes RendererBackend.Vulkan s0 = some src)
    (hnd : (keptModes RendererBackend.Vulkan src).Nodup) :
    (((Rebuild RendererBackend.OpenGL s1).bind
        (Rebuild RendererBackend.Vulkan)).map
      (fun s3 => (s3.vsync_mode_combobox_enum_map,
                  s3.vsync_mode_combobox_items)) =
      some (s1.vsync_mode_combobox_enum_map,
            s1.vsync_mode_combobox_items)) ∧
    (0 ≤ s1.vsync_mode_combobox_current →
      listGetI s1.vsync_mode_combobox_enum_map
        s1.vsync_mode_combobox_current = some c →
      c ∈ keptModes RendererBackend.OpenGL default_present_modes →
      ((Rebuild RendererBackend.OpenGL s1).bind
          (Rebuild RendererBackend.Vulkan)).map
        (fun s3 => s3.vsync_mode_combobox_current) =
        some s1.vsync_mode_combobox_current) := by
  have hbV : ¬ RendererBackend.Vulkan = RendererBackend.Null := by decide
  have hbGL : ¬ RendererBackend.OpenGL = RendererBackend.Null := by decide
  have hndGL :
      (keptModes RendererBackend.OpenGL default_present_modes).Nodup := by
    decide
  rcases Rebuild_inv _ _ _ hbV h0 with ⟨c0, src', hc0, hsrc', _⟩
  rw [hsrc] at hsrc'
  injection hsrc' with es
  subst es
  rcases Rebuild_result_fields RendererBackend.Vulkan s0 c0 src hbV hc0 hsrc
    hnd with ⟨u, hu, henum1, hitems1, hcur1, hvs1, hsm1⟩
  rw [h0] at hu
  injection hu with e
  subst e
  have hc1 := currentModeOf_of_fields s1 c0
    (keptModes RendererBackend.Vulkan src) hcur1 henum1
  have hsrcGL : sourceModes RendererBackend.OpenGL s1 =
      some default_present_modes := rfl
  rcases Rebuild_result_fields RendererBackend.OpenGL s1 _
    default_present_modes hbGL hc1 hsrcGL hndGL with
    ⟨s2, hR2, henum2, hitems2, hcur2, hvs2, hsm2⟩
  have hc2 := currentModeOf_of_fields s2 _
    (keptModes RendererBackend.OpenGL default_present_modes) hcur2 henum2
  have hsrc2 : sourceModes RendererBackend.Vulkan s2 = some src := by
    rw [hsm2 RendererBackend.Vulkan, hsm1 RendererBackend.Vulkan]
    exact hsrc
  rcases Rebuild_result_fields RendererBackend.Vulkan s2 _ src hbV hc2
    hsrc2 hnd with ⟨s3, hR3, henum3, hitems3, hcur3, hvs3, hsm3⟩
  constructor
  · rw [hR2]
    simp only [Option.some_bind]
    rw [hR3]
    simp only [Option.map_some']
    rw [henum3, hitems3, henum1, hitems1]
  · intro hge hget hmem
    have hm0 : c0 ∈ keptModes RendererBackend.Vulkan src := by
      by_contra hm0
      rw [hcur1, if_neg hm0] at hge
      omega
    have hcc : c = c0 := by
      rw [henum1, hcur1, if_pos hm0, listGetI_indexOf _ _ hm0] at hget
      injection hget with hcc
      exact hcc.symm
    subst hcc
    rw [hR2]
    simp only [Option.some_bind]
    rw [hR3]
    simp only [Option.map_some', Option.some.injEq]
    rw [hcur3, hcur1]
    simp only [hm0, if_true, hmem]

/-- C9 amended witness: the fixed-point state with FIFO selected (FIFO
also survives the OpenGL offering) has its offered list and selection
reproduced by the backend round trip. -/
theorem roundtrip_offered_and_selection_witness :
    (((Rebuild RendererBackend.OpenGL exRoundTripFIFOState).bind
        (Rebuild RendererBackend.Vulkan)).map
      (fun s3 => (s3.vsync_mode_combobox_enum_map,
                  s3.vsync_mode_combobox_items)) =
      some (exRoundTripFIFOState.vsync_mode_combobox_enum_map,
            exRoundTripFIFOState.vsync_mode_combobox_items)) ∧
    (0 ≤ exRoundTripFIFOState.vsync_mode_combobox_current →
      listGetI exRoundTripFIFOState.vsync_mode_combobox_enum_map
        exRoundTripFIFOState.vsync_mode_combobox_current =
        some VK_PRESENT_MODE_FIFO_KHR →
      VK_PRESENT_MODE_FIFO_KHR ∈
        keptModes RendererBackend.OpenGL default_present_modes →
      ((Rebuild RendererBackend.OpenGL exRoundTripFIFOState).bind
          (Rebuild RendererBackend.Vulkan)).map
        (fun s3 => s3.vsync_mode_combobox_current) =
        some exRoundTripFIFOState.vsync_mode_combobox_current) :=
  roundtrip_offered_and_selection exRoundTripFIFOState exRoundTripFIFOState
    [VK_PRESENT_MODE_IMMEDIATE_KHR, VK_PRESENT_MODE_MAILBOX_KHR,
      VK_PRESENT_MODE_FIFO_KHR]
    VK_PRESENT_MODE_FIFO_KHR (by rfl) (by rfl) (by decide)
